import Mathlib

/-!
Verification of the Story-Studio audio engine against its specification.

The development shallowly embeds the renderer audio code:

* `AudioManager.ts` — buffer cache, playback state machine, fades,
  section-music policy, subscriber signalling — as an explicit state
  machine `AMState` with one Lean function per TypeScript method and an
  `AMOp`/`run` layer for whole traces, including the asynchronous decode
  completions and node `onended` callbacks as explicit events.
* `AudioRouting.ts` (the revision without tokens) as `RoutingState`
  with `Except`-valued operations, and the later tokenized revision of
  the same class as `RoutingTokState` with issue/complete steps so that
  in-flight device binds can interleave.
* `MicrophoneInput.ts` as `MicState`.

WebAudio nodes are represented by integer ids; a node counts as live
from `source.start` until `source.stop`/`disconnect` runs for it (the
`liveNodes` ledger).  Gain ramps are recorded as a pending target; the
interpolated value of an in-flight ramp is never queried by any claim.
Listener callbacks are abstracted by `notifyCount`, which counts the
invocations of the private `notify` method (which calls every
subscribed listener).
-/

namespace StoryStudio

/-- Clamp a volume to the unit interval, as in the repeated source
expression max 0 (min 1 volume). -/
def clamp01 (v : Rat) : Rat := max 0 (min 1 v)

/-! ### Association-list maps

JavaScript `Map` objects keyed by clip url are embedded as association
lists without duplicate keys. -/

/-- Lookup in an association list, as `Map.get`. -/
def alookup {α : Type} (m : List (String × α)) (k : String) : Option α :=
  (m.find? (fun p => p.1 == k)).map (fun p => p.2)

/-- Insert or update in an association list, as `Map.set`. -/
def aset {α : Type} (m : List (String × α)) (k : String) (v : α) :
    List (String × α) :=
  match m with
  | [] => [(k, v)]
  | (k', v') :: rest =>
      if k' == k then (k, v) :: rest else (k', v') :: aset rest k v

/-- Remove a key from an association list, as `Map.delete`. -/
def aerase {α : Type} (m : List (String × α)) (k : String) :
    List (String × α) :=
  m.filter (fun p => !(p.1 == k))

/-! ### Playback engine state (`AudioManager.ts`) -/

/-- One live WebAudio source/gain pair created by `playClip`, as stored
in the `activeNodes` map.  `ramp` is the target of a pending
`linearRampToValueAtTime`; `fadingOut` records that `stopClip` replaced
the `onended` handler with its fading teardown handler. -/
structure PlayNode where
  id : Nat
  gain : Rat
  ramp : Option Rat
  loop : Bool
  fadingOut : Bool
  deriving DecidableEq

/-- The mutable state of the `AudioManager` class together with the
environment facts the claims observe: the ledger `liveNodes` of created
and started but not yet stopped source nodes, the log `fetchLog` of
issued fetches, the multiset `pendingDecodes` of in-flight
fetch-and-decode operations, and the continuations `pendingPlays`
registered by `playClip` on a missing buffer. -/
structure AMState where
  clock : Rat
  buffers : List (String × Rat)
  activeNodes : List (String × PlayNode)
  pauseTimes : List (String × Rat)
  startTimes : List (String × Rat)
  sectionMusicUrl : Option String
  notifyCount : Nat
  nextNodeId : Nat
  liveNodes : List (Nat × String)
  fetchLog : List String
  pendingDecodes : List String
  pendingPlays : List (String × Rat × Bool × Bool)
  deriving DecidableEq

/-- The freshly constructed manager: empty maps, no live nodes. -/
def initAM : AMState :=
  { clock := 0, buffers := [], activeNodes := [], pauseTimes := []
    startTimes := [], sectionMusicUrl := none, notifyCount := 0
    nextNodeId := 0, liveNodes := [], fetchLog := []
    pendingDecodes := [], pendingPlays := [] }

/-- The private `notify` method: calls every subscribed listener. -/
def notify (s : AMState) : AMState :=
  { s with notifyCount := s.notifyCount + 1 }

/-- `isPlaying(url)`: the url has an entry in `activeNodes`. -/
def isPlaying (s : AMState) (url : String) : Bool :=
  (alookup s.activeNodes url).isSome

/-- `getCurrentTime(url)`: live-computed from the clock while playing,
else the retained pause offset. -/
def getCurrentTime (s : AMState) (url : String) : Rat :=
  if isPlaying s url then
    s.clock - ((alookup s.startTimes url).getD 0)
  else
    (alookup s.pauseTimes url).getD 0

/-- `getDuration(url)`: the cached buffer duration or 0. -/
def getDuration (s : AMState) (url : String) : Rat :=
  ((alookup s.buffers url).map id).getD 0

/-- The private `cleanupNode(url)`: detach the `onended` handler, stop
and disconnect the node (it leaves the live ledger), delete the map
entry. -/
def cleanupNode (s : AMState) (url : String) : AMState :=
  match alookup s.activeNodes url with
  | none => s
  | some node =>
      { s with
        liveNodes := s.liveNodes.erase (node.id, url)
        activeNodes := aerase s.activeNodes url }

/-- The synchronous prefix of `preload(url)`: return if cached,
otherwise issue the fetch and leave a decode in flight.  There is no
in-flight bookkeeping in the source: the only guard is the cache
lookup. -/
def preloadCall (s : AMState) (url : String) : AMState :=
  if (alookup s.buffers url).isSome then s
  else
    { s with
      fetchLog := s.fetchLog ++ [url]
      pendingDecodes := s.pendingDecodes ++ [url] }

/-- Completion event of one in-flight decode, success case: the buffer
is stored and subscribers are notified. -/
def decodeOk (s : AMState) (url : String) (dur : Rat) : AMState :=
  if url ∈ s.pendingDecodes then
    notify
      { s with
        buffers := aset s.buffers url dur
        pendingDecodes := s.pendingDecodes.erase url }
  else s

/-- Completion event of one in-flight decode, failure case: the error
is logged and the cache entry stays absent. -/
def decodeFail (s : AMState) (url : String) : AMState :=
  if url ∈ s.pendingDecodes then
    { s with pendingDecodes := s.pendingDecodes.erase url }
  else s

/-- `playClip(url, volume, loop, fadeOptions)`.  Without a buffer it
starts a preload and registers the replay continuation.  With a buffer
it tears down any existing node for the url, then creates, wires and
starts a fresh source at the retained pause offset, recording
`startTimeOnClock = clockNow - offset`, and notifies. -/
def playClip (s : AMState) (url : String) (volume : Rat) (loop : Bool)
    (fadeEnabled : Bool) : AMState :=
  match alookup s.buffers url with
  | none =>
      let s1 := preloadCall s url
      { s1 with pendingPlays := s1.pendingPlays ++ [(url, volume, loop, fadeEnabled)] }
  | some _ =>
      let s1 := if isPlaying s url then cleanupNode s url else s
      let nodeId := s1.nextNodeId
      let node : PlayNode :=
        { id := nodeId
          gain := if fadeEnabled then 0 else clamp01 volume
          ramp := if fadeEnabled then some (clamp01 volume) else none
          loop := loop, fadingOut := false }
      let offset := (alookup s1.pauseTimes url).getD 0
      notify
        { s1 with
          nextNodeId := nodeId + 1
          liveNodes := (nodeId, url) :: s1.liveNodes
          startTimes := aset s1.startTimes url (s1.clock - offset)
          activeNodes := aset s1.activeNodes url node }

/-- The `onended` callback event for the source node `nodeId` of `url`.
Both installed handlers first compare the ending source with the one
currently tracked for the url and do nothing on a mismatch; the
`playClip` handler additionally resets the pause offset to 0. -/
def onendedEv (s : AMState) (url : String) (nodeId : Nat) : AMState :=
  match alookup s.activeNodes url with
  | none => s
  | some node =>
      if node.id = nodeId then
        let s1 :=
          { s with
            liveNodes := s.liveNodes.erase (nodeId, url)
            activeNodes := aerase s.activeNodes url }
        if node.fadingOut then notify s1
        else notify { s1 with pauseTimes := aset s1.pauseTimes url 0 }
      else s

/-- `pauseClip(url)`: record `elapsed = clockNow - startTimeOnClock` as
the retained offset, tear the node down, notify.  No-op when not
playing. -/
def pauseClip (s : AMState) (url : String) : AMState :=
  match alookup s.activeNodes url with
  | none => s
  | some _ =>
      let start := (alookup s.startTimes url).getD 0
      let elapsed := s.clock - start
      let s1 := { s with pauseTimes := aset s.pauseTimes url elapsed }
      notify (cleanupNode s1 url)

/-- `stopClip(url, fadeOptions)`: with fade, cancel scheduled ramps,
re-arm a 3 second ramp to 0 and swap the `onended` handler for the
fading teardown, leaving the node live until the scheduled stop;
without fade, tear down immediately.  Either way the retained offset is
reset to 0 and subscribers are notified. -/
def stopClip (s : AMState) (url : String) (fadeEnabled : Bool) : AMState :=
  let s1 :=
    match alookup s.activeNodes url with
    | none => s
    | some node =>
        if fadeEnabled then
          { s with
            activeNodes :=
              aset s.activeNodes url { node with ramp := some 0, fadingOut := true } }
        else
          cleanupNode s url
  notify { s1 with pauseTimes := aset s1.pauseTimes url 0 }

/-- `setVolume(url, volume)`: with a live node, cancel scheduled ramps
and snap the clamped value; otherwise nothing at all happens. -/
def setVolume (s : AMState) (url : String) (volume : Rat) : AMState :=
  match alookup s.activeNodes url with
  | none => s
  | some node =>
      { s with
        activeNodes :=
          aset s.activeNodes url { node with gain := clamp01 volume, ramp := none } }

/-- `seek(url, time)`: pause first when playing (capturing elapsed),
overwrite the retained offset, notify; playback is not resumed. -/
def seek (s : AMState) (url : String) (time : Rat) : AMState :=
  let wasPlaying := isPlaying s url
  let s1 := if wasPlaying then pauseClip s url else s
  let s2 := { s1 with pauseTimes := aset s1.pauseTimes url time }
  let s3 := if wasPlaying then notify s2 else s2
  notify s3

/-- `playSectionMusic(url, volume, fadeEnabled)`: stop a different
current section track (respecting the fade flag), mark the url and
start it looping through `playClip`. -/
def playSectionMusic (s : AMState) (url : String) (volume : Rat)
    (fadeEnabled : Bool) : AMState :=
  let s1 :=
    match s.sectionMusicUrl with
    | some prev => if prev ≠ url then stopClip s prev fadeEnabled else s
    | none => s
  let s2 := { s1 with sectionMusicUrl := some url }
  playClip s2 url volume true fadeEnabled

/-- `stopSectionMusic(fadeEnabled)`: stop the current section track and
clear the slot. -/
def stopSectionMusic (s : AMState) (fadeEnabled : Bool) : AMState :=
  match s.sectionMusicUrl with
  | some u => { stopClip s u fadeEnabled with sectionMusicUrl := none }
  | none => s

/-- `stopSlideAudio()`: stop every active url except the section
track. -/
def stopSlideAudio (s : AMState) : AMState :=
  (s.activeNodes.map (fun p => p.1)).foldl
    (fun acc u => if s.sectionMusicUrl = some u then acc else stopClip acc u false) s

/-- `stopAll()`: stop every active url and clear the section slot. -/
def stopAll (s : AMState) : AMState :=
  { (s.activeNodes.map (fun p => p.1)).foldl (fun acc u => stopClip acc u false) s with
    sectionMusicUrl := none }

/-- The event that fires a pending `preload(url).then` replay
continuation registered by `playClip`: replay only when the buffer
arrived. -/
def deferredPlayEv (s : AMState) (url : String) (volume : Rat)
    (loop fadeEnabled : Bool) : AMState :=
  if (url, volume, loop, fadeEnabled) ∈ s.pendingPlays then
    let s1 := { s with pendingPlays := s.pendingPlays.erase (url, volume, loop, fadeEnabled) }
    if (alookup s1.buffers url).isSome then playClip s1 url volume loop fadeEnabled
    else s1
  else s

/-- Advance of the audio clock between calls. -/
def tick (s : AMState) (dt : Rat) : AMState :=
  { s with clock := s.clock + dt }

/-- One engine call or environment event. -/
inductive AMOp where
  | preload (url : String)
  | decodeOk (url : String) (dur : Rat)
  | decodeFail (url : String)
  | playClip (url : String) (volume : Rat) (loop fadeEnabled : Bool)
  | deferredPlay (url : String) (volume : Rat) (loop fadeEnabled : Bool)
  | onended (url : String) (nodeId : Nat)
  | pauseClip (url : String)
  | stopClip (url : String) (fadeEnabled : Bool)
  | setVolume (url : String) (volume : Rat)
  | seek (url : String) (time : Rat)
  | playSectionMusic (url : String) (volume : Rat) (fadeEnabled : Bool)
  | stopSectionMusic (fadeEnabled : Bool)
  | stopSlideAudio
  | stopAll
  | tick (dt : Rat)
  deriving DecidableEq

/-- Apply one operation. -/
def applyOp (s : AMState) : AMOp → AMState
  | .preload url => preloadCall s url
  | .decodeOk url dur => decodeOk s url dur
  | .decodeFail url => decodeFail s url
  | .playClip url volume loop fadeEnabled => playClip s url volume loop fadeEnabled
  | .deferredPlay url volume loop fadeEnabled => deferredPlayEv s url volume loop fadeEnabled
  | .onended url nodeId => onendedEv s url nodeId
  | .pauseClip url => pauseClip s url
  | .stopClip url fadeEnabled => stopClip s url fadeEnabled
  | .setVolume url volume => setVolume s url volume
  | .seek url time => seek s url time
  | .playSectionMusic url volume fadeEnabled => playSectionMusic s url volume fadeEnabled
  | .stopSectionMusic fadeEnabled => stopSectionMusic s fadeEnabled
  | .stopSlideAudio => stopSlideAudio s
  | .stopAll => stopAll s
  | .tick dt => tick s dt

/-- Run a trace of operations from a state. -/
def run (s : AMState) (ops : List AMOp) : AMState :=
  ops.foldl applyOp s

/-! ### The single-live-node invariant -/

/-- The live source nodes whose clip is `url`. -/
def liveFor (s : AMState) (url : String) : List (Nat × String) :=
  s.liveNodes.filter (fun p => p.2 == url)

/-- The live ledger entry that the `activeNodes` map predicts for
`url`. -/
def activeEntry (s : AMState) (url : String) : List (Nat × String) :=
  match alookup s.activeNodes url with
  | some node => [(node.id, url)]
  | none => []

/-- The coupling invariant: for every url the live nodes are exactly
the one tracked in `activeNodes`, if any. -/
def NodesInv (s : AMState) : Prop := ∀ url, liveFor s url = activeEntry s url

/-! ### Concrete engine states used as witnesses -/

/-- Clip a decoded (duration 10) and playing at volume 1 from offset 0,
clock at 2 — as after preload, decode, playClip and a 2 second tick. -/
def sPlayingA : AMState :=
  { clock := 2, buffers := [("a", 10)]
    activeNodes :=
      [("a", { id := 0, gain := 1, ramp := none, loop := false, fadingOut := false })]
    pauseTimes := [], startTimes := [("a", 0)]
    sectionMusicUrl := none, notifyCount := 2, nextNodeId := 1
    liveNodes := [(0, "a")], fetchLog := ["a"]
    pendingDecodes := [], pendingPlays := [] }

/-- Clip a decoded (duration 10), nothing playing — as after preload
and decode. -/
def sIdleA : AMState :=
  { clock := 0, buffers := [("a", 10)], activeNodes := []
    pauseTimes := [], startTimes := []
    sectionMusicUrl := none, notifyCount := 1, nextNodeId := 0
    liveNodes := [], fetchLog := ["a"]
    pendingDecodes := [], pendingPlays := [] }

/-- A fetch and decode for clip a is in flight — as right after
preload. -/
def sFetchingA : AMState :=
  { clock := 0, buffers := [], activeNodes := []
    pauseTimes := [], startTimes := []
    sectionMusicUrl := none, notifyCount := 0, nextNodeId := 0
    liveNodes := [], fetchLog := ["a"]
    pendingDecodes := ["a"], pendingPlays := [] }

/-- Clip a decoded and marked as the playing (looping) section track,
clock at 2. -/
def sSectionA : AMState :=
  { clock := 2, buffers := [("a", 10)]
    activeNodes :=
      [("a", { id := 0, gain := 1, ramp := none, loop := true, fadingOut := false })]
    pauseTimes := [], startTimes := [("a", 0)]
    sectionMusicUrl := some "a", notifyCount := 2, nextNodeId := 1
    liveNodes := [(0, "a")], fetchLog := ["a"]
    pendingDecodes := [], pendingPlays := [] }

/-- Clips a and b decoded, a marked as the playing section track. -/
def sSectionB : AMState :=
  { clock := 2, buffers := [("a", 10), ("b", 7)]
    activeNodes :=
      [("a", { id := 0, gain := 1, ramp := none, loop := true, fadingOut := false })]
    pauseTimes := [], startTimes := [("a", 0)]
    sectionMusicUrl := some "a", notifyCount := 3, nextNodeId := 1
    liveNodes := [(0, "a")], fetchLog := ["a", "b"]
    pendingDecodes := [], pendingPlays := [] }

/-! ### Device routing (`AudioRouting.ts`, revision without tokens) -/

/-- The whitespace trim applied by `normalizeSinkId`, written over the
character list so that it evaluates. -/
def jsTrim (s : String) : String :=
  String.mk
    (((s.data.dropWhile Char.isWhitespace).reverse.dropWhile Char.isWhitespace).reverse)

/-- `normalizeSinkId`: trim, and treat the empty string and the literal
"default" identifier as the same system-default device. -/
def normalizeSinkId (sinkId : String) : String :=
  let normalized := jsTrim sinkId
  if normalized = "" ∨ normalized = "default" then "default" else normalized

/-- State of the `AudioRouting` class in the revision without change
tokens: the two `HTMLAudioElement` sink bindings and whether the
monitor element is currently playing its stream. -/
structure RoutingState where
  outputSinkId : String
  monitorSinkId : String
  monitorPlaying : Bool
  deriving DecidableEq

/-- Freshly constructed router: both elements on the default sink. -/
def initRouting : RoutingState :=
  { outputSinkId := "", monitorSinkId := "", monitorPlaying := false }

/-- `sinksAreSame()`. -/
def sinksAreSame (s : RoutingState) : Bool :=
  normalizeSinkId s.outputSinkId == normalizeSinkId s.monitorSinkId

/-- `disableMonitorPlayback()`: pause and detach the monitor element. -/
def disableMonitorPlayback (s : RoutingState) : RoutingState :=
  { s with monitorPlaying := false }

/-- `setDevice(deviceId)`: bind the cable output element to the device.
`bindOk` is the platform `setSinkId` outcome; on failure the error is
logged and rethrown to the caller, on success the output plays and the
same-sink check silences the monitor. -/
def setDevice (s : RoutingState) (deviceId : String) (bindOk : Bool) :
    Except Unit RoutingState :=
  if bindOk then
    let s1 := { s with outputSinkId := deviceId }
    if sinksAreSame s1 then Except.ok (disableMonitorPlayback s1) else Except.ok s1
  else Except.error ()

/-- `setMonitorDevice(deviceId)`: bind the monitor element.  On success
the same-sink check silences or plays the monitor.  On bind failure the
error is logged, the monitor element is re-bound to the cable element's
current sink (`fallbackOk` is that second bind's outcome, its failure
is also swallowed) and monitor playback is disabled; no error reaches
the caller. -/
def setMonitorDevice (s : RoutingState) (deviceId : String)
    (bindOk fallbackOk : Bool) : Except Unit RoutingState :=
  if bindOk then
    let s1 := { s with monitorSinkId := deviceId }
    if sinksAreSame s1 then Except.ok (disableMonitorPlayback s1)
    else Except.ok { s1 with monitorPlaying := true }
  else
    if fallbackOk then
      Except.ok (disableMonitorPlayback { s with monitorSinkId := s.outputSinkId })
    else Except.ok s

/-- A platform media device record. -/
structure MediaDeviceInfo where
  kind : String
  label : String
  deviceId : String
  deriving DecidableEq

/-- `listDevices()`: the capture-permission request (`permissionOk` is
its outcome; the platform blanks the labels of `devices` on denial) is
wrapped in try/catch, so enumeration proceeds and the call resolves
either way, filtering devices by kind. -/
def listDevices (permissionOk : Bool) (devices : List MediaDeviceInfo) :
    Except Unit (List MediaDeviceInfo × List MediaDeviceInfo) :=
  Except.ok
    (devices.filter (fun d => d.kind == "audioinput"),
     devices.filter (fun d => d.kind == "audiooutput"))

/-! ### Device routing, tokenized revision (`monitorDeviceChangeToken`)

The later revision of `AudioRouting.ts`.  `setDevice` and
`setMonitorDevice` are `async`; each call is split into its synchronous
issue step and the completion of its awaited `setSinkId` bind, so that
two in-flight binds can complete in either order. -/

structure RoutingTokState where
  outputSinkId : String
  monitorSinkId : String
  monitorStream : Bool
  monitorPlaying : Bool
  monitorDeviceChangeToken : Nat
  pendingOut : List (Nat × String)
  pendingMon : List (Nat × String × Nat)
  nextReq : Nat
  deriving DecidableEq

/-- Freshly constructed tokenized router. -/
def initRoutingTok : RoutingTokState :=
  { outputSinkId := "", monitorSinkId := "", monitorStream := false
    monitorPlaying := false, monitorDeviceChangeToken := 0
    pendingOut := [], pendingMon := [], nextReq := 0 }

/-- `sinksAreSame()` of the tokenized revision. -/
def sinksAreSameTok (s : RoutingTokState) : Bool :=
  normalizeSinkId s.outputSinkId == normalizeSinkId s.monitorSinkId

/-- `disableMonitorPlayback()` of the tokenized revision. -/
def disableMonitorPlaybackTok (s : RoutingTokState) : RoutingTokState :=
  { s with monitorPlaying := false }

/-- `ensureMonitorPlayback()`: with no stream the monitor pauses,
otherwise the stream is attached and played. -/
def ensureMonitorPlayback (s : RoutingTokState) : RoutingTokState :=
  if s.monitorStream then { s with monitorPlaying := true }
  else { s with monitorPlaying := false }

/-- The synchronous part of `setDevice(deviceId)`: the `setSinkId`
request is issued and left in flight.  No token is taken for this
slot. -/
def setDeviceIssue (s : RoutingTokState) (deviceId : String) : RoutingTokState :=
  { s with
    pendingOut := s.pendingOut ++ [(s.nextReq, deviceId)]
    nextReq := s.nextReq + 1 }

/-- Completion of an in-flight cable `setSinkId` bind: on success the
element is bound to the requested device (each completion lands at the
platform level, so the last completion wins), the output plays, and the
same-sink check silences or re-enables the monitor; on failure the
error propagates to that caller.  Nothing compares this completion
against newer requests. -/
def setDeviceComplete (s : RoutingTokState) (reqId : Nat) (ok : Bool) :
    RoutingTokState :=
  match s.pendingOut.find? (fun p => p.1 == reqId) with
  | none => s
  | some req =>
      let s1 := { s with pendingOut := s.pendingOut.filter (fun p => !(p.1 == reqId)) }
      if ok then
        let s2 := { s1 with outputSinkId := req.2 }
        if sinksAreSameTok s2 then disableMonitorPlaybackTok s2
        else ensureMonitorPlayback s2
      else s1

/-- The synchronous part of `setMonitorDevice(deviceId)`: the token is
incremented and captured, and the `setSinkId` request is issued. -/
def setMonitorDeviceIssue (s : RoutingTokState) (deviceId : String) :
    RoutingTokState :=
  { s with
    monitorDeviceChangeToken := s.monitorDeviceChangeToken + 1
    pendingMon := s.pendingMon ++ [(s.nextReq, deviceId, s.monitorDeviceChangeToken + 1)]
    nextReq := s.nextReq + 1 }

/-- Completion of an in-flight monitor `setSinkId` bind.  On success
the bind itself still lands, but a completion whose captured token is
stale returns before the silence/re-enable re-evaluation; a fresh
completion re-evaluates on success and failure alike. -/
def setMonitorDeviceComplete (s : RoutingTokState) (reqId : Nat) (ok : Bool) :
    RoutingTokState :=
  match s.pendingMon.find? (fun p => p.1 == reqId) with
  | none => s
  | some req =>
      let s1 := { s with pendingMon := s.pendingMon.filter (fun p => !(p.1 == reqId)) }
      if ok then
        let s2 := { s1 with monitorSinkId := req.2.1 }
        if req.2.2 ≠ s2.monitorDeviceChangeToken then s2
        else if sinksAreSameTok s2 then disableMonitorPlaybackTok s2
        else ensureMonitorPlayback s2
      else
        if req.2.2 ≠ s1.monitorDeviceChangeToken then s1
        else if sinksAreSameTok s1 then disableMonitorPlaybackTok s1
        else ensureMonitorPlayback s1

/-- `setMonitorStream(stream)` of the tokenized revision. -/
def setMonitorStreamTok (s : RoutingTokState) : RoutingTokState :=
  let s1 := { s with monitorStream := true }
  if sinksAreSameTok s1 then disableMonitorPlaybackTok s1
  else ensureMonitorPlayback s1

/-- Tokenized router with the cable on the default sink, the monitor
playing on sink x, and one fresh monitor bind for "default" in
flight. -/
def rTokSame : RoutingTokState :=
  { outputSinkId := "", monitorSinkId := "x", monitorStream := true
    monitorPlaying := true, monitorDeviceChangeToken := 1
    pendingOut := [], pendingMon := [(0, "default", 1)], nextReq := 1 }

/-- Tokenized router with both sinks on the default device, a monitor
stream attached, and one cable bind for device x in flight. -/
def rTokDiverge : RoutingTokState :=
  { outputSinkId := "", monitorSinkId := "default", monitorStream := true
    monitorPlaying := false, monitorDeviceChangeToken := 0
    pendingOut := [(1, "x")], pendingMon := [], nextReq := 2 }

/-- Tokenized router whose token has advanced to 2 while a monitor bind
for device z, captured at token 1, is still in flight. -/
def rTokStale : RoutingTokState :=
  { outputSinkId := "", monitorSinkId := "w", monitorStream := true
    monitorPlaying := true, monitorDeviceChangeToken := 2
    pendingOut := [], pendingMon := [(0, "z", 1)], nextReq := 1 }

/-! ### Microphone input (`MicrophoneInput.ts`) -/

/-- The nullable members of the `MicrophoneInput` class, as presence
flags. -/
structure MicState where
  mediaStream : Bool
  sourceNode : Bool
  gainNode : Bool
  deriving DecidableEq

/-- Freshly constructed microphone input. -/
def initMic : MicState :=
  { mediaStream := false, sourceNode := false, gainNode := false }

/-- `disableMic()`: disconnect and release everything; idempotent. -/
def disableMic (s : MicState) : MicState :=
  { mediaStream := false, sourceNode := false, gainNode := false }

/-- `isEnabled()`. -/
def isEnabled (s : MicState) : Bool := s.mediaStream

/-- `enableMic(deviceId)`: if already enabled, disable first; then
capture the device (`gumOk` is the `getUserMedia` outcome) and wire
source through gain into the cable bus only.  On failure the error is
logged and rethrown: the second component records whether an exception
surfaced to the caller. -/
def enableMic (s : MicState) (gumOk : Bool) : MicState × Bool :=
  let s0 := if s.mediaStream then disableMic s else s
  if gumOk then
    ({ mediaStream := true, sourceNode := true, gainNode := true }, false)
  else (s0, true)

/-! ### Association-list lemmas -/

theorem alookup_cons {α : Type} (k' : String) (v' : α) (rest : List (String × α))
    (k : String) :
    alookup ((k', v') :: rest) k = if k' = k then some v' else alookup rest k := by
  by_cases h : k' = k <;> simp [alookup, List.find?_cons, h]

theorem alookup_aset_self {α : Type} (m : List (String × α)) (k : String) (v : α) :
    alookup (aset m k v) k = some v := by
  induction m with
  | nil => simp [aset, alookup_cons]
  | cons p rest ih =>
      obtain ⟨k', v'⟩ := p
      by_cases h : k' = k <;> simp [aset, h, alookup_cons, ih]

theorem alookup_aset_ne {α : Type} (m : List (String × α)) (k k' : String) (v : α)
    (h : k' ≠ k) : alookup (aset m k v) k' = alookup m k' := by
  induction m with
  | nil => simp [aset, alookup_cons, Ne.symm h]
  | cons p rest ih =>
      obtain ⟨k₁, v₁⟩ := p
      by_cases h1 : k₁ = k
      · subst h1
        simp [aset, alookup_cons, Ne.symm h]
      · simp [aset, h1, alookup_cons, ih]

theorem alookup_aerase_self {α : Type} (m : List (String × α)) (k : String) :
    alookup (aerase m k) k = none := by
  induction m with
  | nil => rfl
  | cons p rest ih =>
      obtain ⟨k', v'⟩ := p
      by_cases h : k' = k
      · simpa [aerase, List.filter_cons, h] using ih
      · simpa [aerase, List.filter_cons, h, alookup_cons] using ih

theorem alookup_aerase_ne {α : Type} (m : List (String × α)) (k k' : String)
    (h : k' ≠ k) : alookup (aerase m k) k' = alookup m k' := by
  induction m with
  | nil => rfl
  | cons p rest ih =>
      obtain ⟨k₁, v₁⟩ := p
      by_cases h1 : k₁ = k
      · subst h1
        simpa [aerase, List.filter_cons, alookup_cons, Ne.symm h] using ih
      · by_cases h2 : k₁ = k'
        · simp [aerase, List.filter_cons, h1, alookup_cons, h2, h]
        · simpa [aerase, List.filter_cons, h1, alookup_cons, h2] using ih

theorem filter_erase {α : Type} [BEq α] [LawfulBEq α] [DecidableEq α]
    (l : List α) (a : α) (p : α → Bool) :
    (l.erase a).filter p =
      if p a then (l.filter p).erase a else l.filter p := by
  induction l with
  | nil => simp
  | cons b t ih =>
      by_cases hba : b = a
      · subst hba
        by_cases hp : p b <;> simp [List.erase_cons, List.filter_cons, hp]
      · have hba' : (b == a) = false := by simp [hba]
        by_cases hp : p b <;> by_cases hpa : p a <;>
          simp [List.erase_cons, List.filter_cons, hba', hp, hpa, ih, hba]

theorem nodesInv_initAM : NodesInv initAM := by
  intro url
  rfl

theorem cleanupNode_eq_none (s : AMState) (url : String)
    (hact : alookup s.activeNodes url = none) : cleanupNode s url = s := by
  unfold cleanupNode
  rw [hact]

theorem cleanupNode_eq (s : AMState) (url : String) (node : PlayNode)
    (hact : alookup s.activeNodes url = some node) :
    cleanupNode s url =
      { s with
        liveNodes := s.liveNodes.erase (node.id, url)
        activeNodes := aerase s.activeNodes url } := by
  unfold cleanupNode
  rw [hact]

theorem liveFor_erase_self (l : List (Nat × String)) (nid : Nat) (u : String) :
    (l.erase (nid, u)).filter (fun p => p.2 == u) =
      (l.filter (fun p => p.2 == u)).erase (nid, u) := by
  have hfe := filter_erase l (nid, u) (fun p => p.2 == u)
  rw [if_pos (by simp)] at hfe
  exact hfe

theorem liveFor_erase_ne (l : List (Nat × String)) (nid : Nat) (u u' : String)
    (h : u ≠ u') :
    (l.erase (nid, u)).filter (fun p => p.2 == u') =
      l.filter (fun p => p.2 == u') := by
  have hfe := filter_erase l (nid, u) (fun p => p.2 == u')
  rw [if_neg (by simp [h])] at hfe
  exact hfe

theorem nodesInv_cleanupNode (s : AMState) (url : String) (h : NodesInv s) :
    NodesInv (cleanupNode s url) := by
  cases hact : alookup s.activeNodes url with
  | none => rw [cleanupNode_eq_none s url hact]; exact h
  | some node =>
      rw [cleanupNode_eq s url node hact]
      intro u
      by_cases hu : u = url
      · subst hu
        have hl : liveFor s u = [(node.id, u)] := by
          rw [h u]; unfold activeEntry; rw [hact]
        unfold liveFor at hl
        unfold liveFor activeEntry
        dsimp only
        rw [alookup_aerase_self, liveFor_erase_self, hl]
        simp [List.erase_cons]
      · unfold liveFor activeEntry
        dsimp only
        rw [alookup_aerase_ne s.activeNodes url u hu,
          liveFor_erase_ne s.liveNodes node.id url u (Ne.symm hu)]
        exact h u

theorem cleanupNode_lookup_self (s : AMState) (url : String) :
    alookup (cleanupNode s url).activeNodes url = none := by
  cases hact : alookup s.activeNodes url with
  | none => rw [cleanupNode_eq_none s url hact]; exact hact
  | some node =>
      rw [cleanupNode_eq s url node hact]
      exact alookup_aerase_self s.activeNodes url

theorem liveFor_empty_of_not_active (s : AMState) (url : String) (h : NodesInv s)
    (hact : alookup s.activeNodes url = none) : liveFor s url = [] := by
  rw [h url]; unfold activeEntry; rw [hact]

/-! ### Characterizations of the match-based operations -/

theorem playClip_eq_buffered (s s1 : AMState) (url : String) (volume : Rat)
    (loop fadeEnabled : Bool) (dur : Rat)
    (hbuf : alookup s.buffers url = some dur)
    (hs1 : s1 = if isPlaying s url then cleanupNode s url else s) :
    playClip s url volume loop fadeEnabled =
      notify
        { s1 with
          nextNodeId := s1.nextNodeId + 1
          liveNodes := (s1.nextNodeId, url) :: s1.liveNodes
          startTimes :=
            aset s1.startTimes url (s1.clock - (alookup s1.pauseTimes url).getD 0)
          activeNodes :=
            aset s1.activeNodes url
              { id := s1.nextNodeId
                gain := if fadeEnabled then 0 else clamp01 volume
                ramp := if fadeEnabled then some (clamp01 volume) else none
                loop := loop, fadingOut := false } } := by
  subst hs1
  unfold playClip
  rw [hbuf]

theorem playClip_eq_missing (s : AMState) (url : String) (volume : Rat)
    (loop fadeEnabled : Bool) (hbuf : alookup s.buffers url = none) :
    playClip s url volume loop fadeEnabled =
      { preloadCall s url with
        pendingPlays :=
          (preloadCall s url).pendingPlays ++ [(url, volume, loop, fadeEnabled)] } := by
  unfold playClip
  rw [hbuf]

theorem pauseClip_eq_none (s : AMState) (url : String)
    (hact : alookup s.activeNodes url = none) : pauseClip s url = s := by
  unfold pauseClip
  rw [hact]

theorem pauseClip_eq (s : AMState) (url : String) (node : PlayNode)
    (hact : alookup s.activeNodes url = some node) :
    pauseClip s url =
      notify
        (cleanupNode
          { s with
            pauseTimes :=
              aset s.pauseTimes url (s.clock - (alookup s.startTimes url).getD 0) }
          url) := by
  unfold pauseClip
  rw [hact]

theorem stopClip_eq_none (s : AMState) (url : String) (fadeEnabled : Bool)
    (hact : alookup s.activeNodes url = none) :
    stopClip s url fadeEnabled = notify { s with pauseTimes := aset s.pauseTimes url 0 } := by
  unfold stopClip
  rw [hact]

theorem stopClip_eq_fade (s s1 : AMState) (url : String) (node : PlayNode)
    (hact : alookup s.activeNodes url = some node)
    (hs1 : s1 =
      { s with
        activeNodes :=
          aset s.activeNodes url { node with ramp := some 0, fadingOut := true } }) :
    stopClip s url true =
      notify { s1 with pauseTimes := aset s1.pauseTimes url 0 } := by
  subst hs1
  unfold stopClip
  rw [hact]
  rfl

theorem stopClip_eq_nofade (s s1 : AMState) (url : String) (node : PlayNode)
    (hact : alookup s.activeNodes url = some node)
    (hs1 : s1 = cleanupNode s url) :
    stopClip s url false =
      notify { s1 with pauseTimes := aset s1.pauseTimes url 0 } := by
  subst hs1
  unfold stopClip
  rw [hact]
  rfl

theorem setVolume_eq_none (s : AMState) (url : String) (volume : Rat)
    (hact : alookup s.activeNodes url = none) : setVolume s url volume = s := by
  unfold setVolume
  rw [hact]

theorem setVolume_eq (s : AMState) (url : String) (volume : Rat) (node : PlayNode)
    (hact : alookup s.activeNodes url = some node) :
    setVolume s url volume =
      { s with
        activeNodes :=
          aset s.activeNodes url { node with gain := clamp01 volume, ramp := none } } := by
  unfold setVolume
  rw [hact]

theorem onendedEv_eq_none (s : AMState) (url : String) (nodeId : Nat)
    (hact : alookup s.activeNodes url = none) : onendedEv s url nodeId = s := by
  unfold onendedEv
  rw [hact]

theorem onendedEv_eq_mismatch (s : AMState) (url : String) (nodeId : Nat)
    (node : PlayNode) (hact : alookup s.activeNodes url = some node)
    (hne : node.id ≠ nodeId) : onendedEv s url nodeId = s := by
  unfold onendedEv
  rw [hact]
  simp [hne]

theorem onendedEv_eq_match (s s1 : AMState) (url : String) (node : PlayNode)
    (hact : alookup s.activeNodes url = some node)
    (hs1 : s1 =
      { s with
        liveNodes := s.liveNodes.erase (node.id, url)
        activeNodes := aerase s.activeNodes url }) :
    onendedEv s url node.id =
      if node.fadingOut then notify s1
      else notify { s1 with pauseTimes := aset s1.pauseTimes url 0 } := by
  subst hs1
  unfold onendedEv
  rw [hact]
  simp

/-! ### Invariant preservation over every operation -/

theorem nodesInv_of_same_nodes (s t : AMState)
    (hl : t.liveNodes = s.liveNodes) (ha : t.activeNodes = s.activeNodes)
    (h : NodesInv s) : NodesInv t := by
  intro u
  unfold liveFor activeEntry
  rw [hl, ha]
  exact h u

theorem nodesInv_notify (s : AMState) (h : NodesInv s) : NodesInv (notify s) := h

theorem nodesInv_preloadCall (s : AMState) (url : String) (h : NodesInv s) :
    NodesInv (preloadCall s url) := by
  unfold preloadCall
  split
  · exact h
  · exact h

theorem nodesInv_decodeOk (s : AMState) (url : String) (dur : Rat)
    (h : NodesInv s) : NodesInv (decodeOk s url dur) := by
  unfold decodeOk
  split
  · exact h
  · exact h

theorem nodesInv_decodeFail (s : AMState) (url : String) (h : NodesInv s) :
    NodesInv (decodeFail s url) := by
  unfold decodeFail
  split
  · exact h
  · exact h

theorem nodesInv_tick (s : AMState) (dt : Rat) (h : NodesInv s) :
    NodesInv (tick s dt) := h

theorem nodesInv_playClip (s : AMState) (url : String) (volume : Rat)
    (loop fadeEnabled : Bool) (h : NodesInv s) :
    NodesInv (playClip s url volume loop fadeEnabled) := by
  cases hbuf : alookup s.buffers url with
  | none =>
      rw [playClip_eq_missing s url volume loop fadeEnabled hbuf]
      exact nodesInv_of_same_nodes _ _ rfl rfl (nodesInv_preloadCall s url h)
  | some dur =>
      rw [playClip_eq_buffered s (if isPlaying s url then cleanupNode s url else s)
        url volume loop fadeEnabled dur hbuf rfl]
      have h1 : NodesInv (if isPlaying s url then cleanupNode s url else s) := by
        split
        · exact nodesInv_cleanupNode s url h
        · exact h
      have hact1 :
          alookup (if isPlaying s url then cleanupNode s url else s).activeNodes url
            = none := by
        split
        · exact cleanupNode_lookup_self s url
        · rename_i hnp
          unfold isPlaying at hnp
          cases hx : alookup s.activeNodes url with
          | none => rfl
          | some n => rw [hx] at hnp; simp at hnp
      intro u
      set s1 := (if isPlaying s url then cleanupNode s url else s) with hs1def
      by_cases hu : u = url
      · subst hu
        unfold liveFor activeEntry
        dsimp only [notify]
        rw [alookup_aset_self]
        rw [List.filter_cons]
        simp only [show ((s1.nextNodeId, u) : Nat × String).2 == u from by simp]
        have hempty : liveFor s1 u = [] :=
          liveFor_empty_of_not_active s1 u h1 hact1
        unfold liveFor at hempty
        simp [hempty]
      · unfold liveFor activeEntry
        dsimp only [notify]
        rw [alookup_aset_ne s1.activeNodes url u _ hu]
        rw [List.filter_cons]
        have hne : (((s1.nextNodeId, url) : Nat × String).2 == u) = false := by
          simp [Ne.symm hu]
        simp only [hne]
        exact h1 u

theorem nodesInv_onendedEv (s : AMState) (url : String) (nodeId : Nat)
    (h : NodesInv s) : NodesInv (onendedEv s url nodeId) := by
  cases hact : alookup s.activeNodes url with
  | none => rw [onendedEv_eq_none s url nodeId hact]; exact h
  | some node =>
      by_cases hid : node.id = nodeId
      · subst hid
        rw [onendedEv_eq_match s _ url node hact rfl]
        have hc : NodesInv (cleanupNode s url) := nodesInv_cleanupNode s url h
        rw [cleanupNode_eq s url node hact] at hc
        cases hf : node.fadingOut
        · simp only [hf, Bool.false_eq_true, if_false]
          exact nodesInv_of_same_nodes _ _ rfl rfl hc
        · simp only [hf, if_true]
          exact nodesInv_notify _ hc
      · rw [onendedEv_eq_mismatch s url nodeId node hact hid]
        exact h

theorem nodesInv_pauseClip (s : AMState) (url : String) (h : NodesInv s) :
    NodesInv (pauseClip s url) := by
  cases hact : alookup s.activeNodes url with
  | none => rw [pauseClip_eq_none s url hact]; exact h
  | some node =>
      rw [pauseClip_eq s url node hact]
      have h2 : NodesInv
          { s with
            pauseTimes :=
              aset s.pauseTimes url (s.clock - (alookup s.startTimes url).getD 0) } :=
        nodesInv_of_same_nodes _ _ rfl rfl h
      exact nodesInv_notify _ (nodesInv_cleanupNode _ url h2)

theorem nodesInv_stopClip (s : AMState) (url : String) (fadeEnabled : Bool)
    (h : NodesInv s) : NodesInv (stopClip s url fadeEnabled) := by
  cases hact : alookup s.activeNodes url with
  | none =>
      rw [stopClip_eq_none s url fadeEnabled hact]
      exact nodesInv_notify _ (nodesInv_of_same_nodes _ _ rfl rfl h)
  | some node =>
      cases fadeEnabled
      · rw [stopClip_eq_nofade s _ url node hact rfl]
        exact nodesInv_notify _
          (nodesInv_of_same_nodes _ _ rfl rfl (nodesInv_cleanupNode s url h))
      · rw [stopClip_eq_fade s _ url node hact rfl]
        apply nodesInv_notify
        apply nodesInv_of_same_nodes _
          { s with
            activeNodes :=
              aset s.activeNodes url { node with ramp := some 0, fadingOut := true } }
          rfl rfl
        intro u
        by_cases hu : u = url
        · subst hu
          unfold liveFor activeEntry
          dsimp only
          rw [alookup_aset_self]
          have := h u
          unfold liveFor activeEntry at this
          rw [hact] at this
          simpa using this
        · unfold liveFor activeEntry
          dsimp only
          rw [alookup_aset_ne s.activeNodes url u _ hu]
          exact h u

theorem nodesInv_setVolume (s : AMState) (url : String) (volume : Rat)
    (h : NodesInv s) : NodesInv (setVolume s url volume) := by
  cases hact : alookup s.activeNodes url with
  | none => rw [setVolume_eq_none s url volume hact]; exact h
  | some node =>
      rw [setVolume_eq s url volume node hact]
      intro u
      by_cases hu : u = url
      · subst hu
        unfold liveFor activeEntry
        dsimp only
        rw [alookup_aset_self]
        have := h u
        unfold liveFor activeEntry at this
        rw [hact] at this
        simpa using this
      · unfold liveFor activeEntry
        dsimp only
        rw [alookup_aset_ne s.activeNodes url u _ hu]
        exact h u

theorem nodesInv_seek (s : AMState) (url : String) (time : Rat) (h : NodesInv s) :
    NodesInv (seek s url time) := by
  unfold seek
  apply nodesInv_notify
  by_cases hw : isPlaying s url
  · simp only [hw, if_true]
    apply nodesInv_notify
    exact nodesInv_of_same_nodes _ (pauseClip s url) rfl rfl
      (nodesInv_pauseClip s url h)
  · simp only [hw, Bool.false_eq_true, if_false]
    exact nodesInv_of_same_nodes _ s rfl rfl h

theorem nodesInv_playSectionMusic (s : AMState) (url : String) (volume : Rat)
    (fadeEnabled : Bool) (h : NodesInv s) :
    NodesInv (playSectionMusic s url volume fadeEnabled) := by
  unfold playSectionMusic
  apply nodesInv_playClip
  apply nodesInv_of_same_nodes _
    (match s.sectionMusicUrl with
     | some prev => if prev ≠ url then stopClip s prev fadeEnabled else s
     | none => s) rfl rfl
  cases s.sectionMusicUrl with
  | none => exact h
  | some prev =>
      dsimp only
      split
      · exact nodesInv_stopClip s prev fadeEnabled h
      · exact h

theorem nodesInv_stopSectionMusic (s : AMState) (fadeEnabled : Bool)
    (h : NodesInv s) : NodesInv (stopSectionMusic s fadeEnabled) := by
  unfold stopSectionMusic
  cases s.sectionMusicUrl with
  | none => exact h
  | some u =>
      dsimp only
      exact nodesInv_of_same_nodes _ (stopClip s u fadeEnabled) rfl rfl
        (nodesInv_stopClip s u fadeEnabled h)

theorem nodesInv_foldl_stops (urls : List String) (g : AMState → String → AMState)
    (hg : ∀ s' u, NodesInv s' → NodesInv (g s' u)) (s : AMState) (h : NodesInv s) :
    NodesInv (urls.foldl g s) := by
  induction urls generalizing s with
  | nil => exact h
  | cons u t ih => exact ih (g s u) (hg s u h)

theorem nodesInv_stopSlideAudio (s : AMState) (h : NodesInv s) :
    NodesInv (stopSlideAudio s) := by
  unfold stopSlideAudio
  apply nodesInv_foldl_stops _ _ _ s h
  intro s' u hi
  split
  · exact hi
  · exact nodesInv_stopClip s' u false hi

theorem nodesInv_stopAll (s : AMState) (h : NodesInv s) : NodesInv (stopAll s) := by
  unfold stopAll
  apply nodesInv_of_same_nodes _
    ((s.activeNodes.map (fun p => p.1)).foldl (fun acc u => stopClip acc u false) s)
    rfl rfl
  apply nodesInv_foldl_stops _ _ _ s h
  intro s' u hi
  exact nodesInv_stopClip s' u false hi

theorem nodesInv_deferredPlayEv (s : AMState) (url : String) (volume : Rat)
    (loop fadeEnabled : Bool) (h : NodesInv s) :
    NodesInv (deferredPlayEv s url volume loop fadeEnabled) := by
  unfold deferredPlayEv
  split
  · dsimp only
    have h1 :
        NodesInv
          { s with pendingPlays := s.pendingPlays.erase (url, volume, loop, fadeEnabled) } :=
      nodesInv_of_same_nodes _ s rfl rfl h
    split
    · exact nodesInv_playClip _ url volume loop fadeEnabled h1
    · exact h1
  · exact h

theorem nodesInv_applyOp (s : AMState) (op : AMOp) (h : NodesInv s) :
    NodesInv (applyOp s op) := by
  cases op with
  | preload url => exact nodesInv_preloadCall s url h
  | decodeOk url dur => exact nodesInv_decodeOk s url dur h
  | decodeFail url => exact nodesInv_decodeFail s url h
  | playClip url volume loop fadeEnabled =>
      exact nodesInv_playClip s url volume loop fadeEnabled h
  | deferredPlay url volume loop fadeEnabled =>
      exact nodesInv_deferredPlayEv s url volume loop fadeEnabled h
  | onended url nodeId => exact nodesInv_onendedEv s url nodeId h
  | pauseClip url => exact nodesInv_pauseClip s url h
  | stopClip url fadeEnabled => exact nodesInv_stopClip s url fadeEnabled h
  | setVolume url volume => exact nodesInv_setVolume s url volume h
  | seek url time => exact nodesInv_seek s url time h
  | playSectionMusic url volume fadeEnabled =>
      exact nodesInv_playSectionMusic s url volume fadeEnabled h
  | stopSectionMusic fadeEnabled => exact nodesInv_stopSectionMusic s fadeEnabled h
  | stopSlideAudio => exact nodesInv_stopSlideAudio s h
  | stopAll => exact nodesInv_stopAll s h
  | tick dt => exact nodesInv_tick s dt h

theorem nodesInv_run (s : AMState) (ops : List AMOp) (h : NodesInv s) :
    NodesInv (run s ops) := by
  unfold run
  induction ops generalizing s with
  | nil => exact h
  | cons op t ih => exact ih (applyOp s op) (nodesInv_applyOp s op h)

/-! ### Claim C1 -/

/-- C1: for every url, at most one live playback node exists at any
instant.  Along every trace of engine calls and environment events from
the initial state, the number of created-and-started but not yet
stopped source nodes for a url never exceeds one: `playClip` on a url
with an existing instance runs `cleanupNode` (stop and disconnect the
old node) before creating the new node, so even rapid repeated
`playClip(url)` calls keep the active-instance count for url at or
below 1. -/
theorem playClip_single_live_node (ops : List AMOp) (url : String) :
    ((run initAM ops).liveNodes.filter (fun p => p.2 == url)).length ≤ 1 := by
  have h := nodesInv_run initAM ops nodesInv_initAM url
  unfold liveFor at h
  rw [h]
  unfold activeEntry
  cases alookup (run initAM ops).activeNodes url <;> simp

/-! ### Shape lemmas for the remaining claims -/

theorem isPlaying_false_iff (s : AMState) (url : String)
    (hact : alookup s.activeNodes url = none) : isPlaying s url = false := by
  unfold isPlaying
  rw [hact]
  rfl

theorem isPlaying_true_iff (s : AMState) (url : String) (node : PlayNode)
    (hact : alookup s.activeNodes url = some node) : isPlaying s url = true := by
  unfold isPlaying
  rw [hact]
  rfl

theorem playClip_eq_idle (s : AMState) (url : String) (v : Rat) (loop f : Bool)
    (dur : Rat) (hbuf : alookup s.buffers url = some dur)
    (hact : alookup s.activeNodes url = none) :
    playClip s url v loop f =
      { s with
        nextNodeId := s.nextNodeId + 1
        liveNodes := (s.nextNodeId, url) :: s.liveNodes
        startTimes := aset s.startTimes url (s.clock - (alookup s.pauseTimes url).getD 0)
        activeNodes :=
          aset s.activeNodes url
            { id := s.nextNodeId, gain := if f then 0 else clamp01 v
              ramp := if f then some (clamp01 v) else none
              loop := loop, fadingOut := false }
        notifyCount := s.notifyCount + 1 } := by
  rw [playClip_eq_buffered s s url v loop f dur hbuf
    (by rw [isPlaying_false_iff s url hact]; rfl)]
  rfl

theorem pauseClip_shape (s : AMState) (url : String) (node : PlayNode)
    (hact : alookup s.activeNodes url = some node) :
    pauseClip s url =
      { s with
        pauseTimes := aset s.pauseTimes url (s.clock - (alookup s.startTimes url).getD 0)
        liveNodes := s.liveNodes.erase (node.id, url)
        activeNodes := aerase s.activeNodes url
        notifyCount := s.notifyCount + 1 } := by
  rw [pauseClip_eq s url node hact]
  rw [cleanupNode_eq
    { s with
      pauseTimes := aset s.pauseTimes url (s.clock - (alookup s.startTimes url).getD 0) }
    url node hact]
  rfl

theorem stopClip_shape (s : AMState) (url : String) (f : Bool) :
    ∃ an ln,
      stopClip s url f =
        { s with
          pauseTimes := aset s.pauseTimes url 0
          activeNodes := an, liveNodes := ln
          notifyCount := s.notifyCount + 1 } := by
  cases hact : alookup s.activeNodes url with
  | none =>
      refine ⟨s.activeNodes, s.liveNodes, ?_⟩
      rw [stopClip_eq_none s url f hact]
      rfl
  | some node =>
      cases f
      · refine ⟨aerase s.activeNodes url, s.liveNodes.erase (node.id, url), ?_⟩
        rw [stopClip_eq_nofade s _ url node hact rfl]
        rw [cleanupNode_eq s url node hact]
        rfl
      · refine ⟨aset s.activeNodes url { node with ramp := some 0, fadingOut := true },
          s.liveNodes, ?_⟩
        rw [stopClip_eq_fade s _ url node hact rfl]
        rfl

/-! ### Claim C2 -/

theorem cleanupNode_clock (s : AMState) (url : String) :
    (cleanupNode s url).clock = s.clock := by
  cases hact : alookup s.activeNodes url with
  | none => rw [cleanupNode_eq_none s url hact]
  | some node => rw [cleanupNode_eq s url node hact]

theorem cleanupNode_pauseTimes (s : AMState) (url : String) :
    (cleanupNode s url).pauseTimes = s.pauseTimes := by
  cases hact : alookup s.activeNodes url with
  | none => rw [cleanupNode_eq_none s url hact]
  | some node => rw [cleanupNode_eq s url node hact]

/-- A `playClip` on a buffered url, without fade, always starts the new
node at the retained offset: immediately afterwards `getCurrentTime` is
that offset and `startTimeOnClock` is the clock minus that offset. -/
theorem playClip_resume_offset (x : AMState) (url : String) (v : Rat) (loop : Bool)
    (dur : Rat) (hbuf : alookup x.buffers url = some dur) :
    getCurrentTime (playClip x url v loop false) url =
        (alookup x.pauseTimes url).getD 0 ∧
      (alookup (playClip x url v loop false).startTimes url).getD 0 =
        x.clock - (alookup x.pauseTimes url).getD 0 := by
  rw [playClip_eq_buffered x (if isPlaying x url then cleanupNode x url else x)
    url v loop false dur hbuf rfl]
  set s1 := if isPlaying x url then cleanupNode x url else x with hs1
  have hclock : s1.clock = x.clock := by
    rw [hs1]; split
    · exact cleanupNode_clock x url
    · rfl
  have hpt : s1.pauseTimes = x.pauseTimes := by
    rw [hs1]; split
    · exact cleanupNode_pauseTimes x url
    · rfl
  constructor
  · unfold getCurrentTime isPlaying
    dsimp only [notify]
    rw [alookup_aset_self]
    simp only [Option.isSome_some, if_true]
    rw [alookup_aset_self]
    rw [hpt]
    simp
  · dsimp only [notify]
    rw [alookup_aset_self]
    rw [hclock, hpt]
    rfl

/-- C2: retained-offset round trip.  For a url that is playing with a
buffered clip, `pauseClip` followed (after any delay) by `playClip`
resumes at the elapsed time that was current at the pause: the resumed
state reports the same `getCurrentTime` and records
`startTimeOnClock = clockNow - t`.  `stopClip` — fading or not —
resets the retained offset to 0, so a subsequent `playClip` starts from
the beginning. -/
theorem pause_play_resumes_stop_play_resets (s : AMState) (url : String)
    (v w : Rat) (loop loop2 fadeStop : Bool) (dt dt2 : Rat) (dur : Rat)
    (node : PlayNode) (hbuf : alookup s.buffers url = some dur)
    (hact : alookup s.activeNodes url = some node) :
    (getCurrentTime (playClip (tick (pauseClip s url) dt) url v loop false) url =
        getCurrentTime s url ∧
      (alookup (playClip (tick (pauseClip s url) dt) url v loop false).startTimes
          url).getD 0 =
        (tick (pauseClip s url) dt).clock - getCurrentTime s url) ∧
    getCurrentTime (playClip (tick (stopClip s url fadeStop) dt2) url w loop2 false)
        url = 0 := by
  have ht : getCurrentTime s url = s.clock - (alookup s.startTimes url).getD 0 := by
    unfold getCurrentTime
    rw [isPlaying_true_iff s url node hact]
    rfl
  constructor
  · have hp := pauseClip_shape s url node hact
    have hbufp : alookup (tick (pauseClip s url) dt).buffers url = some dur := by
      rw [hp]; exact hbuf
    have hro := playClip_resume_offset (tick (pauseClip s url) dt) url v loop dur hbufp
    have hptp :
        (alookup (tick (pauseClip s url) dt).pauseTimes url).getD 0 =
          getCurrentTime s url := by
      rw [hp, ht]
      dsimp only [tick]
      rw [alookup_aset_self]
      rfl
    exact ⟨hro.1.trans hptp, hro.2.trans (by rw [hptp])⟩
  · obtain ⟨an, ln, hst⟩ := stopClip_shape s url fadeStop
    have hbufs : alookup (tick (stopClip s url fadeStop) dt2).buffers url = some dur := by
      rw [hst]; exact hbuf
    have hro := playClip_resume_offset (tick (stopClip s url fadeStop) dt2) url w loop2
      dur hbufs
    have hpts : (alookup (tick (stopClip s url fadeStop) dt2).pauseTimes url).getD 0
        = 0 := by
      rw [hst]
      dsimp only [tick]
      rw [alookup_aset_self]
      rfl
    exact hro.1.trans hpts

/-- Witness for C2 at a concrete playing state: clip a decoded with
duration 10, playing from offset 0, clock advanced to 2; the elapsed
time 2 survives pause then play, and stop (without fade) then play
restarts at 0. -/
theorem pause_play_resumes_witness :
    alookup sPlayingA.buffers "a" = some 10 ∧
    alookup sPlayingA.activeNodes "a" =
      some { id := 0, gain := 1, ramp := none, loop := false, fadingOut := false } ∧
    getCurrentTime sPlayingA "a" = 2 ∧
    getCurrentTime (playClip (tick (pauseClip sPlayingA "a") 1) "a" 1 false false)
      "a" = 2 ∧
    getCurrentTime (playClip (tick (stopClip sPlayingA "a" false) 1) "a" 1 false false)
      "a" = 0 := by
  have hg : getCurrentTime sPlayingA "a" = 2 := by
    have h0 : getCurrentTime sPlayingA "a" = 2 - 0 := rfl
    rw [h0]
    norm_num
  have h := pause_play_resumes_stop_play_resets sPlayingA "a" 1 1 false false false 1 1 10
    { id := 0, gain := 1, ramp := none, loop := false, fadingOut := false }
    rfl rfl
  exact ⟨rfl, rfl, hg, h.1.1.trans hg, h.2⟩

/-! ### Claim C3 -/

theorem cleanupNode_sectionMusicUrl (s : AMState) (url : String) :
    (cleanupNode s url).sectionMusicUrl = s.sectionMusicUrl := by
  cases hact : alookup s.activeNodes url with
  | none => rw [cleanupNode_eq_none s url hact]
  | some node => rw [cleanupNode_eq s url node hact]

theorem cleanupNode_nextNodeId (s : AMState) (url : String) :
    (cleanupNode s url).nextNodeId = s.nextNodeId := by
  cases hact : alookup s.activeNodes url with
  | none => rw [cleanupNode_eq_none s url hact]
  | some node => rw [cleanupNode_eq s url node hact]

theorem cleanupNode_lookup_ne (s : AMState) (url u : String) (h : u ≠ url) :
    alookup (cleanupNode s url).activeNodes u = alookup s.activeNodes u := by
  cases hact : alookup s.activeNodes url with
  | none => rw [cleanupNode_eq_none s url hact]
  | some node =>
      rw [cleanupNode_eq s url node hact]
      exact alookup_aerase_ne s.activeNodes url u h

theorem playClip_sectionMusicUrl (s : AMState) (url : String) (v : Rat)
    (loop f : Bool) :
    (playClip s url v loop f).sectionMusicUrl = s.sectionMusicUrl := by
  cases hbuf : alookup s.buffers url with
  | none =>
      rw [playClip_eq_missing s url v loop f hbuf]
      unfold preloadCall
      split
      · rfl
      · rfl
  | some dur =>
      rw [playClip_eq_buffered s (if isPlaying s url then cleanupNode s url else s)
        url v loop f dur hbuf rfl]
      dsimp only [notify]
      split
      · exact cleanupNode_sectionMusicUrl s url
      · rfl

theorem playClip_pauseTimes (s : AMState) (url : String) (v : Rat) (loop f : Bool) :
    (playClip s url v loop f).pauseTimes = s.pauseTimes := by
  cases hbuf : alookup s.buffers url with
  | none =>
      rw [playClip_eq_missing s url v loop f hbuf]
      unfold preloadCall
      split
      · rfl
      · rfl
  | some dur =>
      rw [playClip_eq_buffered s (if isPlaying s url then cleanupNode s url else s)
        url v loop f dur hbuf rfl]
      dsimp only [notify]
      split
      · exact cleanupNode_pauseTimes s url
      · rfl

theorem playClip_activeNodes_ne (s : AMState) (url u : String) (v : Rat)
    (loop f : Bool) (h : u ≠ url) :
    alookup (playClip s url v loop f).activeNodes u = alookup s.activeNodes u := by
  cases hbuf : alookup s.buffers url with
  | none =>
      rw [playClip_eq_missing s url v loop f hbuf]
      unfold preloadCall
      split
      · rfl
      · rfl
  | some dur =>
      rw [playClip_eq_buffered s (if isPlaying s url then cleanupNode s url else s)
        url v loop f dur hbuf rfl]
      dsimp only [notify]
      rw [alookup_aset_ne _ url u _ h]
      split
      · exact cleanupNode_lookup_ne s url u h
      · rfl

theorem playClip_nextNodeId_buffered (s : AMState) (url : String) (v : Rat)
    (loop f : Bool) (dur : Rat) (hbuf : alookup s.buffers url = some dur) :
    (playClip s url v loop f).nextNodeId = s.nextNodeId + 1 := by
  rw [playClip_eq_buffered s (if isPlaying s url then cleanupNode s url else s)
    url v loop f dur hbuf rfl]
  dsimp only [notify]
  split
  · rw [cleanupNode_nextNodeId s url]
  · rfl

theorem playClip_active_self_buffered (s : AMState) (url : String) (v : Rat)
    (loop f : Bool) (dur : Rat) (hbuf : alookup s.buffers url = some dur) :
    ∃ nd, alookup (playClip s url v loop f).activeNodes url = some nd ∧
      nd.id = s.nextNodeId := by
  rw [playClip_eq_buffered s (if isPlaying s url then cleanupNode s url else s)
    url v loop f dur hbuf rfl]
  dsimp only [notify]
  rw [alookup_aset_self]
  refine ⟨_, rfl, ?_⟩
  dsimp only
  split
  · rw [cleanupNode_nextNodeId s url]
  · rfl

theorem stopClip_nofade_lookup_self (s : AMState) (url : String) :
    alookup (stopClip s url false).activeNodes url = none := by
  cases hact : alookup s.activeNodes url with
  | none =>
      rw [stopClip_eq_none s url false hact]
      exact hact
  | some node =>
      rw [stopClip_eq_nofade s _ url node hact rfl]
      dsimp only [notify]
      rw [cleanupNode_eq s url node hact]
      exact alookup_aerase_self s.activeNodes url

/-- Counterexample to C3 as stated: re-asserting the current section
track is not a no-op.  With clip a already the section track and
playing for 2 seconds, a second `playSectionMusic("a")` changes the
state — it tears the live node down and creates a fresh one through
`playClip` (the node counter advances), restarting at the retained
offset: `getCurrentTime` drops from 2 to 0. -/
theorem playSectionMusic_not_noop :
    sSectionA.sectionMusicUrl = some "a" ∧
    getCurrentTime sSectionA "a" = 2 ∧
    playSectionMusic sSectionA "a" 1 false ≠ sSectionA ∧
    (playSectionMusic sSectionA "a" 1 false).nextNodeId = sSectionA.nextNodeId + 1 ∧
    getCurrentTime (playSectionMusic sSectionA "a" 1 false) "a" = 0 := by
  refine ⟨rfl, ?_, ?_, ?_, ?_⟩
  · have h0 : getCurrentTime sSectionA "a" = 2 - 0 := rfl
    rw [h0]
    norm_num
  · intro heq
    exact absurd (congrArg AMState.nextNodeId heq) (by decide)
  · decide
  · have h0 : getCurrentTime (playSectionMusic sSectionA "a" 1 false) "a" =
        2 - (2 - 0) := rfl
    rw [h0]
    norm_num

/-- C3 amended: `playSectionMusic(url, volume, fadeEnabled)` marks
`url` as the unique section track; a different current section track is
stopped first, respecting `fadeEnabled` (its retained offset resets to
0, and without fade its node is gone).  But re-asserting the current
section url is a restart, not a no-op: `playClip` runs unconditionally,
creating a fresh node (the node counter advances and the new active
node carries the fresh id). -/
theorem playSectionMusic_policy (s : AMState) (url prev : String) (v : Rat)
    (fadeEnabled : Bool) (dur : Rat) (hbuf : alookup s.buffers url = some dur) :
    (playSectionMusic s url v fadeEnabled).sectionMusicUrl = some url ∧
    (s.sectionMusicUrl = some prev → prev ≠ url →
      (alookup (playSectionMusic s url v fadeEnabled).pauseTimes prev).getD 0 = 0 ∧
      (fadeEnabled = false →
        alookup (playSectionMusic s url v fadeEnabled).activeNodes prev = none)) ∧
    (s.sectionMusicUrl = some url →
      (playSectionMusic s url v fadeEnabled).nextNodeId = s.nextNodeId + 1 ∧
      ∃ nd, alookup (playSectionMusic s url v fadeEnabled).activeNodes url = some nd ∧
        nd.id = s.nextNodeId) := by
  refine ⟨?_, ?_, ?_⟩
  · unfold playSectionMusic
    rw [playClip_sectionMusicUrl]
  · intro hsec hne
    unfold playSectionMusic
    rw [hsec]
    dsimp only
    rw [if_pos hne]
    obtain ⟨an, ln, hst⟩ := stopClip_shape s prev fadeEnabled
    constructor
    · rw [playClip_pauseTimes]
      rw [hst]
      dsimp only
      rw [alookup_aset_self]
      rfl
    · intro hfe
      subst hfe
      rw [playClip_activeNodes_ne _ url prev v true false hne]
      exact stopClip_nofade_lookup_self s prev
  · intro hsec
    unfold playSectionMusic
    rw [hsec]
    dsimp only
    rw [if_neg (by simp)]
    constructor
    · exact playClip_nextNodeId_buffered _ url v true fadeEnabled dur hbuf
    · exact playClip_active_self_buffered _ url v true fadeEnabled dur hbuf

/-- Witness for the amended C3: from `sSectionB` (clip b decoded, clip
a the playing section track), `playSectionMusic("b")` marks b, resets
a's offset to 0 and removes a's node; and from `sSectionA`,
re-asserting a advances the node counter. -/
theorem playSectionMusic_policy_witness :
    ((playSectionMusic sSectionA "a" 1 false).sectionMusicUrl = some "a" ∧
      (playSectionMusic sSectionA "a" 1 false).nextNodeId = sSectionA.nextNodeId + 1) ∧
    ((playSectionMusic sSectionB "b" 1 false).sectionMusicUrl = some "b" ∧
      (alookup (playSectionMusic sSectionB "b" 1 false).pauseTimes "a").getD 0 = 0 ∧
      alookup (playSectionMusic sSectionB "b" 1 false).activeNodes "a" = none) := by
  have h1 := playSectionMusic_policy sSectionA "a" "a" 1 false 10 rfl
  have h2 := playSectionMusic_policy sSectionB "b" "a" 1 false 7 rfl
  refine ⟨⟨h1.1, (h1.2.2 rfl).1⟩, h2.1, ?_, ?_⟩
  · exact (h2.2.1 rfl (by decide)).1
  · exact (h2.2.1 rfl (by decide)).2 rfl

/-! ### Claim C5 -/

theorem cleanupNode_notifyCount (s : AMState) (url : String) :
    (cleanupNode s url).notifyCount = s.notifyCount := by
  cases hact : alookup s.activeNodes url with
  | none => rw [cleanupNode_eq_none s url hact]
  | some node => rw [cleanupNode_eq s url node hact]

theorem clamp01_zero : clamp01 0 = 0 := by
  unfold clamp01
  rw [min_def, max_def]
  norm_num

theorem clamp01_half : clamp01 (1 / 2) = (1 / 2 : Rat) := by
  unfold clamp01
  rw [min_def, max_def]
  norm_num

/-- Counterexample to C5 as stated: `setVolume` on a url with a live
gain node does not notify subscribers.  At `sPlayingA` clip a has a
live gain node; `setVolume("a", 0)` mutates the engine state (the gain
snaps from 1 to 0) yet the count of `notify` invocations — each of
which calls every subscribed listener — is unchanged. -/
theorem setVolume_does_not_notify :
    alookup sPlayingA.activeNodes "a" =
      some { id := 0, gain := 1, ramp := none, loop := false, fadingOut := false } ∧
    alookup (setVolume sPlayingA "a" 0).activeNodes "a" =
      some { id := 0, gain := 0, ramp := none, loop := false, fadingOut := false } ∧
    (setVolume sPlayingA "a" 0).notifyCount = sPlayingA.notifyCount := by
  refine ⟨rfl, ?_, rfl⟩
  have h2 : alookup (setVolume sPlayingA "a" 0).activeNodes "a" =
      some { id := 0, gain := clamp01 0, ramp := none, loop := false
             fadingOut := false } := rfl
  rw [h2, clamp01_zero]

/-- C5 amended: starting a buffered clip, pausing a playing clip,
stopping, and the natural-end callback each deliver exactly one
no-payload notification to the subscribed listeners, but `setVolume`
never notifies — not even when it mutates a live gain node. -/
theorem state_change_notifications (s : AMState) (url : String) (v : Rat)
    (loop f : Bool) (dur : Rat) (nodeId : Nat) :
    (alookup s.buffers url = some dur →
      (playClip s url v loop f).notifyCount = s.notifyCount + 1) ∧
    (isPlaying s url = true →
      (pauseClip s url).notifyCount = s.notifyCount + 1) ∧
    (stopClip s url f).notifyCount = s.notifyCount + 1 ∧
    ((∃ nd, alookup s.activeNodes url = some nd ∧ nd.id = nodeId) →
      (onendedEv s url nodeId).notifyCount = s.notifyCount + 1) ∧
    (setVolume s url v).notifyCount = s.notifyCount := by
  refine ⟨?_, ?_, ?_, ?_, ?_⟩
  · intro hbuf
    rw [playClip_eq_buffered s (if isPlaying s url then cleanupNode s url else s)
      url v loop f dur hbuf rfl]
    dsimp only [notify]
    split
    · rw [cleanupNode_notifyCount s url]
    · rfl
  · intro hp
    unfold isPlaying at hp
    cases hact : alookup s.activeNodes url with
    | none => rw [hact] at hp; simp at hp
    | some node => rw [pauseClip_shape s url node hact]
  · obtain ⟨an, ln, hst⟩ := stopClip_shape s url f
    rw [hst]
  · rintro ⟨nd, hact, hid⟩
    subst hid
    rw [onendedEv_eq_match s _ url nd hact rfl]
    cases nd.fadingOut
    · rfl
    · rfl
  · cases hact : alookup s.activeNodes url with
    | none => rw [setVolume_eq_none s url v hact]
    | some node => rw [setVolume_eq s url v node hact]

/-- Witness for the amended C5 at concrete states: play, pause, stop
and natural end each bump the notify count by one, `setVolume` leaves
it unchanged. -/
theorem state_change_notifications_witness :
    (playClip sIdleA "a" 1 false false).notifyCount = sIdleA.notifyCount + 1 ∧
    (pauseClip sPlayingA "a").notifyCount = sPlayingA.notifyCount + 1 ∧
    (stopClip sPlayingA "a" false).notifyCount = sPlayingA.notifyCount + 1 ∧
    (onendedEv sPlayingA "a" 0).notifyCount = sPlayingA.notifyCount + 1 ∧
    (setVolume sPlayingA "a" 0).notifyCount = sPlayingA.notifyCount := by
  have h1 := state_change_notifications sIdleA "a" 1 false false 10 0
  have h2 := state_change_notifications sPlayingA "a" 0 false false 10 0
  exact ⟨h1.1 rfl, h2.2.1 rfl, h2.2.2.1,
    h2.2.2.2.1
      ⟨{ id := 0, gain := 1, ramp := none, loop := false, fadingOut := false },
        rfl, rfl⟩,
    h2.2.2.2.2⟩

/-! ### Claim C10 -/

/-- C10: for a url with no live gain node, `setVolume(url, v)` is a
complete no-op — the state is literally unchanged, so the clamped value
is not retained anywhere and no notification is emitted — and a
subsequent `playClip(url, w)` plays at its own clamped volume argument
`w`, independent of `v`. -/
theorem setVolume_idle_noop (s : AMState) (url : String) (v w : Rat)
    (loop : Bool) (dur : Rat) (hact : alookup s.activeNodes url = none)
    (hbuf : alookup s.buffers url = some dur) :
    setVolume s url v = s ∧
    alookup (playClip (setVolume s url v) url w loop false).activeNodes url =
      some { id := s.nextNodeId, gain := clamp01 w, ramp := none, loop := loop
             fadingOut := false } := by
  have h0 : setVolume s url v = s := setVolume_eq_none s url v hact
  refine ⟨h0, ?_⟩
  rw [h0]
  rw [playClip_eq_idle s url w loop false dur hbuf hact]
  dsimp only
  rw [alookup_aset_self]
  rfl

/-- Witness for C10: at the idle decoded state, `setVolume("a", 2)`
changes nothing, and the following `playClip("a", 1/2)` creates its
node at gain 1/2, not at the clamped 2. -/
theorem setVolume_idle_noop_witness :
    alookup sIdleA.activeNodes "a" = none ∧
    setVolume sIdleA "a" 2 = sIdleA ∧
    alookup (playClip (setVolume sIdleA "a" 2) "a" (1 / 2) false false).activeNodes
        "a" =
      some { id := 0, gain := 1 / 2, ramp := none, loop := false
             fadingOut := false } := by
  have h := setVolume_idle_noop sIdleA "a" 2 (1 / 2) false 10 rfl rfl
  refine ⟨rfl, h.1, h.2.trans ?_⟩
  rw [clamp01_half]
  rfl

/-! ### Claim C9 -/

/-- Counterexample to C9 as stated: `preload` does not no-op while a
decode for the url is already in flight.  Two `preload("a")` calls
issued before the first decode resolves each start their own fetch and
decode: the fetch log gains two entries, not one. -/
theorem preload_double_fetch :
    (run initAM [.preload "a", .preload "a"]).fetchLog = ["a", "a"] ∧
    (run initAM [.preload "a", .preload "a"]).pendingDecodes = ["a", "a"] ∧
    ["a", "a"] ≠ (["a"] : List String) := by
  exact ⟨rfl, rfl, by decide⟩

/-- C9 amended: `preload(url)` no-ops when the url is already cached,
but keeps no in-flight bookkeeping: issued while the buffer is absent —
even with a decode for the url already pending — it starts another
fetch and decode.  On decode failure the cache entry stays absent, so a
later `playClip(url)` issues a fresh fetch and registers its replay
rather than entering a permanent failure state. -/
theorem preload_cache_and_retry (s : AMState) (url : String) (v : Rat)
    (loop f : Bool) (dur : Rat) :
    (alookup s.buffers url = some dur → preloadCall s url = s) ∧
    (alookup s.buffers url = none → url ∈ s.pendingDecodes →
      (preloadCall s url).fetchLog = s.fetchLog ++ [url] ∧
      (preloadCall s url).pendingDecodes = s.pendingDecodes ++ [url]) ∧
    (alookup s.buffers url = none → alookup (decodeFail s url).buffers url = none) ∧
    (alookup (decodeFail s url).buffers url = none →
      (playClip (decodeFail s url) url v loop f).fetchLog =
        (decodeFail s url).fetchLog ++ [url] ∧
      (url, v, loop, f) ∈ (playClip (decodeFail s url) url v loop f).pendingPlays) := by
  refine ⟨?_, ?_, ?_, ?_⟩
  · intro hbuf
    unfold preloadCall
    rw [hbuf]
    rfl
  · intro hb _hmem
    unfold preloadCall
    rw [hb]
    exact ⟨rfl, rfl⟩
  · intro hb
    unfold decodeFail
    split
    · exact hb
    · exact hb
  · intro hb
    rw [playClip_eq_missing (decodeFail s url) url v loop f hb]
    unfold preloadCall
    rw [hb]
    refine ⟨rfl, ?_⟩
    dsimp only
    exact List.mem_append_right _ (List.mem_singleton_self _)

/-- Witness for the amended C9: `preload` no-ops on the cached state,
issues a second fetch on the in-flight state, and after a decode
failure `playClip` issues a fresh fetch and registers its replay. -/
theorem preload_cache_and_retry_witness :
    preloadCall sIdleA "a" = sIdleA ∧
    (preloadCall sFetchingA "a").fetchLog = ["a", "a"] ∧
    (playClip (decodeFail sFetchingA "a") "a" 1 false false).fetchLog = ["a", "a"] ∧
    ("a", (1 : Rat), false, false) ∈
      (playClip (decodeFail sFetchingA "a") "a" 1 false false).pendingPlays := by
  have h1 := preload_cache_and_retry sIdleA "a" 1 false false 10
  have h2 := preload_cache_and_retry sFetchingA "a" 1 false false 0
  refine ⟨h1.1 rfl, ?_, ?_, ?_⟩
  · rw [(h2.2.1 rfl (by decide)).1]
    rfl
  · rw [(h2.2.2.2 rfl).1]
    rfl
  · exact (h2.2.2.2 rfl).2

/-! ### Claims C4, C6, C7 (device routing) -/

theorem monitor_reeval (x : RoutingTokState) :
    (if sinksAreSameTok x then disableMonitorPlaybackTok x
      else ensureMonitorPlayback x).monitorPlaying =
        (!(sinksAreSameTok x) && x.monitorStream) ∧
    sinksAreSameTok (if sinksAreSameTok x then disableMonitorPlaybackTok x
      else ensureMonitorPlayback x) = sinksAreSameTok x ∧
    (if sinksAreSameTok x then disableMonitorPlaybackTok x
      else ensureMonitorPlayback x).monitorStream = x.monitorStream := by
  refine ⟨?_, ?_, ?_⟩
  · by_cases hsame : sinksAreSameTok x
    · rw [if_pos hsame, hsame]
      rfl
    · rw [if_neg hsame]
      rw [Bool.not_eq_true] at hsame
      rw [hsame]
      unfold ensureMonitorPlayback
      by_cases hms : x.monitorStream
      · rw [if_pos hms, hms]
        rfl
      · rw [Bool.not_eq_true] at hms
        rw [hms]
        simp only [Bool.false_eq_true, if_false]
        rfl
  · by_cases hsame : sinksAreSameTok x
    · rw [if_pos hsame]
      rfl
    · rw [if_neg hsame]
      unfold ensureMonitorPlayback
      split
      · rfl
      · rfl
  · by_cases hsame : sinksAreSameTok x
    · rw [if_pos hsame]
      rfl
    · rw [if_neg hsame]
      unfold ensureMonitorPlayback
      split
      · rfl
      · rfl

theorem monitor_reeval_outputSinkId (x : RoutingTokState) :
    (if sinksAreSameTok x then disableMonitorPlaybackTok x
      else ensureMonitorPlayback x).outputSinkId = x.outputSinkId := by
  split
  · rfl
  · unfold ensureMonitorPlayback
    split
    · rfl
    · rfl

theorem monitor_reeval_pendingOut (x : RoutingTokState) :
    (if sinksAreSameTok x then disableMonitorPlaybackTok x
      else ensureMonitorPlayback x).pendingOut = x.pendingOut := by
  split
  · rfl
  · unfold ensureMonitorPlayback
    split
    · rfl
    · rfl

theorem setDeviceComplete_outputSinkId (w : RoutingTokState) (reqId : Nat)
    (req : Nat × String)
    (hfind : w.pendingOut.find? (fun p => p.1 == reqId) = some req) :
    (setDeviceComplete w reqId true).outputSinkId = req.2 := by
  unfold setDeviceComplete
  rw [hfind]
  dsimp only
  rw [if_pos (rfl : true = true)]
  exact monitor_reeval_outputSinkId _

/-- C4: monitor-silence invariant of the tokenized router.  After a
completed cable bind, and after a fresh (non-stale) completed monitor
bind — successful or not — the monitor plays exactly when the two
sinks differ after normalization (the empty string and the literal
"default" both denote the system default) and a monitor stream is
attached: binding both slots to the same physical device silences the
monitor path, and a later completed bind that makes them diverge
re-enables it. -/
theorem monitor_silence_round_trip (s : RoutingTokState) (reqId : Nat)
    (ok : Bool) (req : Nat × String) (reqM : Nat × String × Nat) :
    (s.pendingOut.find? (fun p => p.1 == reqId) = some req →
      (setDeviceComplete s reqId true).monitorPlaying =
        (!(sinksAreSameTok (setDeviceComplete s reqId true)) &&
          (setDeviceComplete s reqId true).monitorStream)) ∧
    (s.pendingMon.find? (fun p => p.1 == reqId) = some reqM →
      reqM.2.2 = s.monitorDeviceChangeToken →
      (setMonitorDeviceComplete s reqId ok).monitorPlaying =
        (!(sinksAreSameTok (setMonitorDeviceComplete s reqId ok)) &&
          (setMonitorDeviceComplete s reqId ok).monitorStream)) := by
  constructor
  · intro hfind
    unfold setDeviceComplete
    rw [hfind]
    dsimp only
    rw [if_pos (rfl : true = true)]
    obtain ⟨h1, h2, h3⟩ := monitor_reeval
      { s with
        pendingOut := s.pendingOut.filter (fun p => !(p.1 == reqId))
        outputSinkId := req.2 }
    rw [h1, h2, h3]
  · intro hfind htok
    unfold setMonitorDeviceComplete
    rw [hfind]
    dsimp only
    cases ok
    · rw [if_neg Bool.false_ne_true]
      rw [if_neg (show ¬reqM.2.2 ≠ s.monitorDeviceChangeToken from not_not_intro htok)]
      obtain ⟨h1, h2, h3⟩ := monitor_reeval
        { s with pendingMon := s.pendingMon.filter (fun p => !(p.1 == reqId)) }
      rw [h1, h2, h3]
    · rw [if_pos (rfl : true = true)]
      rw [if_neg (show ¬reqM.2.2 ≠ s.monitorDeviceChangeToken from not_not_intro htok)]
      obtain ⟨h1, h2, h3⟩ := monitor_reeval
        { s with
          pendingMon := s.pendingMon.filter (fun p => !(p.1 == reqId))
          monitorSinkId := reqM.2.1 }
      rw [h1, h2, h3]

/-- Witness for C4: completing a fresh monitor bind to "default" while
the cable sits on the empty (default) sink silences the playing
monitor; completing a cable bind to device x while the monitor sits on
"default" re-enables the silenced monitor. -/
theorem monitor_silence_round_trip_witness :
    (setMonitorDeviceComplete rTokSame 0 true).monitorPlaying = false ∧
    (setDeviceComplete rTokDiverge 1 true).monitorPlaying = true := by
  have h1 := (monitor_silence_round_trip rTokSame 0 true (0, "x") (0, "default", 1)).2
    (by decide) (by decide)
  have h2 := (monitor_silence_round_trip rTokDiverge 1 true (1, "x") (0, "", 0)).1
    (by decide)
  constructor
  · rw [h1]
    decide
  · rw [h2]
    decide

/-- Counterexample to C6 as stated: the cable slot is not tokenized.
From the initial router, issue setDevice with X and then with Y; when
the two underlying binds complete out of order (the Y bind first, then
the X bind), the final bound cable device is X, not Y — the stale
completion is not discarded. -/
theorem setDevice_stale_completion_wins :
    (setDeviceComplete
      (setDeviceComplete (setDeviceIssue (setDeviceIssue initRoutingTok "X") "Y")
        1 true)
      0 true).outputSinkId = "X" ∧
    ("X" : String) ≠ "Y" := by
  exact ⟨by decide, by decide⟩

/-- C6 amended: monotonic tokenization protects only the monitor slot —
a stale monitor completion (captured token no longer current) skips the
silence/re-enable re-evaluation, leaving monitor playback and the token
unchanged.  The cable slot carries no token, so after setDevice(X) then
setDevice(Y) the final bound device is whichever bind completes last:
Y when the completions arrive in issue order, X when they arrive out of
order. -/
theorem device_switch_tokens (s : RoutingTokState) (reqId : Nat) (ok : Bool)
    (reqM : Nat × String × Nat) (x y : String) :
    (s.pendingMon.find? (fun p => p.1 == reqId) = some reqM →
      reqM.2.2 ≠ s.monitorDeviceChangeToken →
      (setMonitorDeviceComplete s reqId ok).monitorPlaying = s.monitorPlaying ∧
      (setMonitorDeviceComplete s reqId ok).monitorDeviceChangeToken =
        s.monitorDeviceChangeToken) ∧
    ((setDeviceComplete (setDeviceComplete
        (setDeviceIssue (setDeviceIssue initRoutingTok x) y) 0 true) 1
        true).outputSinkId = y ∧
      (setDeviceComplete (setDeviceComplete
        (setDeviceIssue (setDeviceIssue initRoutingTok x) y) 1 true) 0
        true).outputSinkId = x) := by
  constructor
  · intro hfind htok
    unfold setMonitorDeviceComplete
    rw [hfind]
    dsimp only
    cases ok
    · rw [if_neg Bool.false_ne_true]
      rw [if_pos (show reqM.2.2 ≠ s.monitorDeviceChangeToken from htok)]
      exact ⟨rfl, rfl⟩
    · rw [if_pos (rfl : true = true)]
      rw [if_pos (show reqM.2.2 ≠ s.monitorDeviceChangeToken from htok)]
      exact ⟨rfl, rfl⟩
  · constructor
    · have hstep : setDeviceComplete
          (setDeviceIssue (setDeviceIssue initRoutingTok x) y) 0 true =
          (if sinksAreSameTok
              { outputSinkId := x, monitorSinkId := "", monitorStream := false
                monitorPlaying := false, monitorDeviceChangeToken := 0
                pendingOut := [(1, y)], pendingMon := [], nextReq := 2 } then
            disableMonitorPlaybackTok
              { outputSinkId := x, monitorSinkId := "", monitorStream := false
                monitorPlaying := false, monitorDeviceChangeToken := 0
                pendingOut := [(1, y)], pendingMon := [], nextReq := 2 }
          else
            ensureMonitorPlayback
              { outputSinkId := x, monitorSinkId := "", monitorStream := false
                monitorPlaying := false, monitorDeviceChangeToken := 0
                pendingOut := [(1, y)], pendingMon := [], nextReq := 2 }) := rfl
      have hpo : (setDeviceComplete
          (setDeviceIssue (setDeviceIssue initRoutingTok x) y) 0 true).pendingOut =
            [(1, y)] := by
        rw [hstep, monitor_reeval_pendingOut]
      exact setDeviceComplete_outputSinkId _ 1 (1, y) (by rw [hpo]; rfl)
    · have hstep : setDeviceComplete
          (setDeviceIssue (setDeviceIssue initRoutingTok x) y) 1 true =
          (if sinksAreSameTok
              { outputSinkId := y, monitorSinkId := "", monitorStream := false
                monitorPlaying := false, monitorDeviceChangeToken := 0
                pendingOut := [(0, x)], pendingMon := [], nextReq := 2 } then
            disableMonitorPlaybackTok
              { outputSinkId := y, monitorSinkId := "", monitorStream := false
                monitorPlaying := false, monitorDeviceChangeToken := 0
                pendingOut := [(0, x)], pendingMon := [], nextReq := 2 }
          else
            ensureMonitorPlayback
              { outputSinkId := y, monitorSinkId := "", monitorStream := false
                monitorPlaying := false, monitorDeviceChangeToken := 0
                pendingOut := [(0, x)], pendingMon := [], nextReq := 2 }) := rfl
      have hpo : (setDeviceComplete
          (setDeviceIssue (setDeviceIssue initRoutingTok x) y) 1 true).pendingOut =
            [(0, x)] := by
        rw [hstep, monitor_reeval_pendingOut]
      exact setDeviceComplete_outputSinkId _ 0 (0, x) (by rw [hpo]; rfl)

/-- Witness for the amended C6: a concretely stale monitor completion
leaves monitor playback untouched, and completing the two concrete
cable binds in issue order binds Y. -/
theorem device_switch_tokens_witness :
    (setMonitorDeviceComplete rTokStale 0 true).monitorPlaying =
      rTokStale.monitorPlaying ∧
    (setDeviceComplete (setDeviceComplete
        (setDeviceIssue (setDeviceIssue initRoutingTok "X") "Y") 0 true)
      1 true).outputSinkId = "Y" := by
  have h := device_switch_tokens rTokStale 0 true (0, "z", 1) "X" "Y"
  exact ⟨(h.1 (by decide) (by decide)).1, h.2.1⟩

/-- C7: device-bind failures are handled asymmetrically (revision of
`AudioRouting` without tokens).  A failed cable bind in `setDevice`
propagates to the caller as a surfaced error; `setMonitorDevice` always
resolves, and on bind failure it falls back to re-binding the monitor
element to the cable element's current sink — mirroring the cable
device, whose physical output still carries the feed, with the
redundant monitor path disabled — rather than surfacing the error. -/
theorem device_bind_failure_asymmetry (s : RoutingState) (deviceId : String)
    (bindOk fallbackOk : Bool) :
    setDevice s deviceId false = Except.error () ∧
    (setMonitorDevice s deviceId bindOk fallbackOk).isOk = true ∧
    setMonitorDevice s deviceId false true =
      Except.ok (disableMonitorPlayback { s with monitorSinkId := s.outputSinkId }) := by
  refine ⟨rfl, ?_, rfl⟩
  unfold setMonitorDevice
  cases bindOk
  · cases fallbackOk
    · rfl
    · rfl
  · dsimp only
    rw [if_pos (rfl : true = true)]
    split
    · rfl
    · rfl

/-! ### Claim C8 (permission failure) -/

/-- Counterexample to C8 as stated: `enableMic` surfaces the capture
failure.  On permission denial from the disabled state it logs and
rethrows — the exception reaches the caller — rather than degrading
silently. -/
theorem enableMic_rethrows : enableMic initMic false = (initMic, true) := by
  decide

/-- C8 amended: `listDevices` degrades on permission failure — the call
resolves with the enumerated input and output devices whatever the
permission outcome, identically to the granted case (labels are
whatever the platform supplies) — but `enableMic` does not swallow a
capture failure: it rethrows after logging, and the microphone is left
disabled. -/
theorem permission_failure_degradation (permissionOk : Bool)
    (devices : List MediaDeviceInfo) (m : MicState) :
    (listDevices permissionOk devices).isOk = true ∧
    listDevices false devices = listDevices true devices ∧
    (enableMic m false).2 = true ∧
    isEnabled (enableMic m false).1 = false := by
  refine ⟨rfl, rfl, rfl, ?_⟩
  unfold enableMic
  dsimp only
  by_cases hm : m.mediaStream
  · rw [hm]
    rfl
  · rw [Bool.not_eq_true] at hm
    rw [hm]
    simp only [Bool.false_eq_true, if_false]
    unfold isEnabled
    exact hm

end StoryStudio
